import Mathlib

/-!
Verification of tuf/keys.py: the key data model, keyid derivation
(canonicalize-then-hash over the public-only form), metadata-format
conversion, and the signing/verification dispatch logic.

Python strings (Python 2 `str`, i.e. byte strings for data, text for PEM and
hex material) are modelled as `List Char`; raw byte sequences as `List Nat`
with every element below 256.  Exceptions are modelled with `Except`.

The module's external collaborators (the PyCrypto RSA engine
`tuf.pycrypto_keys`, the Ed25519 engines `tuf.ed25519_keys`, the canonical
encoder `tuf.formats.encode_canonical`, the digest provider `tuf.hash`, and
the schema checks of `tuf.formats`) are not part of the source under
verification; they are modelled from the spec where noted, with doc comments
beginning `Modelled from the spec:`.  Randomness of key generation is made
explicit through a `seed` parameter on the generation routines.
-/

set_option maxRecDepth 4000

abbrev Str : Type := List Char

abbrev Bytes : Type := List Nat

/-- String constant: the keytype tag and method name 'rsa'. -/
def sRSA : Str := "rsa".toList

/-- String constant: the keytype tag, library name and method name 'ed25519'. -/
def sEd25519 : Str := "ed25519".toList

/-- String constant: the library name 'pycrypto'. -/
def sPycrypto : Str := "pycrypto".toList

/-- String constant: the library name 'pynacl'. -/
def sPynacl : Str := "pynacl".toList

/-- Modelled from the spec: the RSA method identifier returned by the RSA
provider's signing routine (RFC 3447 RSASSA-PSS). -/
def rsaMethod : Str := "RSASSA-PSS".toList

/-- Tag opening the modelled PEM text of an RSA public key. -/
def sRsaPublicTag : Str := "rsa-public-".toList

/-- Tag opening the modelled PEM text of an RSA private key. -/
def sRsaPrivateTag : Str := "rsa-private-".toList

/-- The `keyval` component of a key: opaque text-encoded public and private
material (PEM text for RSA, hexadecimal text for Ed25519).  The source field
`private` is called `priv` here because `private` is a Lean keyword; an empty
`priv` is a public-only record. -/
structure KeyVal where
  public : Str
  priv : Str
  deriving DecidableEq

/-- The on-the-wire form of a key used inside metadata documents
(`tuf.formats.KEY_SCHEMA`): `{keytype, keyval}`. -/
structure KeyMeta where
  keytype : Str
  keyval : KeyVal
  deriving DecidableEq

/-- The in-memory key record (`tuf.formats.RSAKEY_SCHEMA` /
`ED25519KEY_SCHEMA`): `{keytype, keyid, keyval}`. -/
structure KeyDict where
  keytype : Str
  keyid : Str
  keyval : KeyVal
  deriving DecidableEq

/-- A signature record (`tuf.formats.SIGNATURE_SCHEMA`):
`{keyid, method, sig}` with `sig` the hexadecimal encoding of the raw
signature bytes. -/
structure SignatureDict where
  keyid : Str
  method : Str
  sig : Str
  deriving DecidableEq

/-- The exception classes raised by keys.py and its collaborators. -/
inductive Err where
  /-- `tuf.FormatError`: an input does not conform to its schema. -/
  | formatError
  /-- `tuf.CryptoError` raised by `_check_crypto_libraries` (the spec's
  `ConfigurationError`): a configured crypto library is unsupported or
  unavailable. -/
  | cryptoError
  /-- `tuf.Error` raised when dispatch meets an unsupported
  `RSA_CRYPTO_LIBRARY`. -/
  | tufError
  /-- `ValueError` raised by `generate_rsa_key` when the configured RSA
  library is not 'pycrypto'. -/
  | valueError
  /-- `TypeError('Invalid key type.')` / `TypeError('Unsupported key type.')`
  (the spec's `UnsupportedKeyTypeError`): a keytype with no dispatch. -/
  | unsupportedKeyTypeError
  /-- The `TypeError`-class error of the providers when signing is requested
  without private material (the spec's `MissingPrivateKeyError`,
  "no private key available for signing"). -/
  | missingPrivateKeyError
  /-- `tuf.UnknownMethodError`: the recorded method names a scheme the
  selected engine does not recognize. -/
  | unknownMethodError
  deriving DecidableEq

/-- The process-wide configuration read by keys.py:
`tuf.conf.RSA_CRYPTO_LIBRARY`, `tuf.conf.ED25519_CRYPTO_LIBRARY`, and which
optional libraries were importable at process start. -/
structure Config where
  RSA_CRYPTO_LIBRARY : Str
  ED25519_CRYPTO_LIBRARY : Str
  pycryptoAvailable : Bool
  pynaclAvailable : Bool
  deriving DecidableEq

/-- `_SUPPORTED_RSA_CRYPTO_LIBRARIES = ['pycrypto']`. -/
def _SUPPORTED_RSA_CRYPTO_LIBRARIES : List Str := [sPycrypto]

/-- `_SUPPORTED_ED25519_CRYPTO_LIBRARIES = ['ed25519', 'pynacl']`. -/
def _SUPPORTED_ED25519_CRYPTO_LIBRARIES : List Str := [sEd25519, sPynacl]

/-- `_available_crypto_libraries`: starts as `['ed25519']`, with 'pycrypto'
and 'pynacl' appended when their imports succeed. -/
def _available_crypto_libraries (c : Config) : List Str :=
  [sEd25519]
    ++ (if c.pycryptoAvailable then [sPycrypto] else [])
    ++ (if c.pynaclAvailable then [sPynacl] else [])

/-- `binascii.hexlify`: each byte becomes two lowercase hexadecimal digits. -/
def hexlify : Bytes → Str
  | [] => []
  | b :: rest => Nat.digitChar (b / 16) :: Nat.digitChar (b % 16) :: hexlify rest

/-- Value of one hexadecimal digit character. -/
def unhexDigitVal (c : Char) : Nat :=
  if 97 ≤ c.toNat then c.toNat - 87 else c.toNat - 48

/-- `binascii.unhexlify`: pairs of hexadecimal digits back to bytes. -/
def unhexlify : Str → Bytes
  | hi :: lo :: rest => (unhexDigitVal hi * 16 + unhexDigitVal lo) :: unhexlify rest
  | _ => []

/-- Little-endian base-256 digits of `n`, padded/truncated to width `w`. -/
def natToBytesLE : Nat → Nat → Bytes
  | 0, _ => []
  | w + 1, n => n % 256 :: natToBytesLE w (n / 256)

/-- One text character as three little-endian bytes (UTF-32-style). -/
def charToBytes (c : Char) : Bytes :=
  [c.toNat % 256, c.toNat / 256 % 256, c.toNat / 65536 % 256]

/-- A text string as a byte sequence. -/
def strToBytes : Str → Bytes
  | [] => []
  | c :: rest => charToBytes c ++ strToBytes rest

/-- Modelled from the spec: `tuf.formats.encode_canonical`, the external
canonicalizer — a deterministic serialization of a `KeyMeta` value into
bytes. -/
def encode_canonical (m : KeyMeta) : Bytes :=
  strToBytes m.keytype ++ strToBytes m.keyval.public ++ strToBytes m.keyval.priv

/-- One step of the modelled digest compression. -/
def digestStep (acc b : Nat) : Nat := (acc * 257 + b + 1) % (2 ^ 256)

/-- Modelled from the spec: the external digest provider `tuf.hash` with
algorithm `_KEY_ID_HASH_ALGORITHM = 'sha256'`, taken as an abstract
deterministic 256-bit digest whose `hexdigest` is 64 lowercase hexadecimal
characters. -/
def sha256hexdigest (data : Bytes) : Str :=
  hexlify (natToBytesLE 32 (data.foldl digestStep 0))

/-- Modelled from the spec: `tuf.formats.RSAKEYBITS_SCHEMA` — the key size
must be at least 2048 and a multiple of 256, else `tuf.FormatError`. -/
abbrev RSAKEYBITS_SCHEMA_ok (bits : Nat) : Prop := 2048 ≤ bits ∧ bits % 256 = 0

/-- Modelled PEM text of the RSA public key generated from `seed`. -/
def rsaPubPem (seed : Nat) : Str := sRsaPublicTag ++ Nat.toDigits 10 seed

/-- Modelled PEM text of the RSA private key generated from `seed`. -/
def rsaPrivPem (seed : Nat) : Str := sRsaPrivateTag ++ Nat.toDigits 10 seed

/-- The RSA private key paired with a given public key in the provider
model. -/
def rsa_matching_private (publicK : Str) : Str :=
  sRsaPrivateTag ++ publicK.drop sRsaPublicTag.length

/-- Modelled from the spec: `tuf.pycrypto_keys.generate_rsa_public_and_private`
— the RSA provider's key-pair generation, PEM text pair, with randomness as
an explicit seed. -/
def pycrypto_keys_generate_rsa_public_and_private (bits seed : Nat) : Str × Str :=
  (rsaPubPem seed, rsaPrivPem seed)

/-- Modelled from the spec: `tuf.pycrypto_keys.create_signature` — the RSA
provider's signing routine.  Signing requires non-empty private material
(`TypeError`-class `MissingPrivateKeyError` otherwise) and returns raw
signature bytes determined by the private key and the data, together with the
method identifier. -/
def pycrypto_keys_create_signature (privateK : Str) (data : Bytes) :
    Except Err (Bytes × Str) :=
  if privateK = [] then Except.error Err.missingPrivateKeyError
  else Except.ok (strToBytes privateK ++ data, rsaMethod)

/-- Modelled from the spec: `tuf.pycrypto_keys.verify_signature` — the RSA
provider's verification routine.  An unrecognized method is an error distinct
from an invalid signature; otherwise the result is true exactly when the
signature bytes are the ones the paired private key produces on this data. -/
def pycrypto_keys_verify_signature (sig : Bytes) (method : Str) (publicK : Str)
    (data : Bytes) : Except Err Bool :=
  if method ≠ rsaMethod then Except.error Err.unknownMethodError
  else Except.ok (decide (sig = strToBytes (rsa_matching_private publicK) ++ data))

/-- Modelled raw Ed25519 public key bytes generated from `seed`. -/
def ed25519_public_of_seed (seed : Nat) : Bytes := 1 :: natToBytesLE 31 seed

/-- Modelled raw Ed25519 private key bytes generated from `seed`. -/
def ed25519_private_of_seed (seed : Nat) : Bytes := 2 :: natToBytesLE 31 seed

/-- The Ed25519 private key paired with a given public key in the provider
model. -/
def ed25519_matching_private (publicB : Bytes) : Bytes := 2 :: publicB.drop 1

/-- Modelled from the spec: `tuf.ed25519_keys.generate_public_and_private` —
raw public/private byte pair, with randomness as an explicit seed.  The
pynacl engine and the fallback implement the same key-generation contract. -/
def ed25519_keys_generate_public_and_private (use_pynacl : Bool) (seed : Nat) :
    Bytes × Bytes :=
  (ed25519_public_of_seed seed, ed25519_private_of_seed seed)

/-- Modelled from the spec: `tuf.ed25519_keys.create_signature` — the Ed25519
signing routine.  Signing requires non-empty private material
(`TypeError`-class `MissingPrivateKeyError` otherwise); both engines
implement the same deterministic Ed25519 algorithm, so the result does not
depend on `use_pynacl`. -/
def ed25519_keys_create_signature (publicB privateB : Bytes) (data : Bytes)
    (use_pynacl : Bool) : Except Err (Bytes × Str) :=
  if privateB = [] then Except.error Err.missingPrivateKeyError
  else Except.ok (privateB ++ data, sEd25519)

/-- Modelled from the spec: `tuf.ed25519_keys.verify_signature` — the Ed25519
verification routine.  An unrecognized method is an error distinct from an
invalid signature; otherwise the result is true exactly when the signature
bytes are the ones the paired private key produces on this data; both engines
implement the same algorithm, so the result does not depend on
`use_pynacl`. -/
def ed25519_keys_verify_signature (publicB : Bytes) (method : Str) (sig : Bytes)
    (data : Bytes) (use_pynacl : Bool) : Except Err Bool :=
  if method ≠ sEd25519 then Except.error Err.unknownMethodError
  else Except.ok (decide (sig = ed25519_matching_private publicB ++ data))

/-- `create_in_metadata_format(keytype, key_value, private=False)`: the
schema checks `KEYTYPE_SCHEMA.check_match` and `KEYVAL_SCHEMA.check_match`
are shape checks that always succeed on the well-typed inputs modelled here
(the format validator is an external collaborator); the function returns
`{keytype, keyval}` verbatim when `private is True and key_value['private']`
is non-empty, else the public-only form with an empty private field. -/
def create_in_metadata_format (keytype : Str) (key_value : KeyVal)
    (priv : Bool) : KeyMeta :=
  if priv = true ∧ key_value.priv ≠ [] then ⟨keytype, key_value⟩
  else ⟨keytype, ⟨key_value.public, []⟩⟩

/-- `_get_keyid(keytype, key_value)`: the metadata-format public-only
projection of the key is canonically encoded and hashed; the keyid is the
hexadecimal digest. -/
def _get_keyid (keytype : Str) (key_value : KeyVal) : Str :=
  sha256hexdigest (encode_canonical (create_in_metadata_format keytype key_value false))

/-- `create_from_metadata_format(key_metadata)`: the shape check
`KEY_SCHEMA.check_match` always succeeds on well-typed inputs; the keyid is
re-derived from `(keytype, keyval)`. -/
def create_from_metadata_format (key_metadata : KeyMeta) : KeyDict :=
  ⟨key_metadata.keytype, _get_keyid key_metadata.keytype key_metadata.keyval,
    key_metadata.keyval⟩

/-- `_check_crypto_libraries()`: raises `tuf.CryptoError` when a configured
library is outside its supported set or absent from the available set. -/
def _check_crypto_libraries (c : Config) : Except Err Unit :=
  if c.RSA_CRYPTO_LIBRARY ∉ _SUPPORTED_RSA_CRYPTO_LIBRARIES then
    Except.error Err.cryptoError
  else if c.ED25519_CRYPTO_LIBRARY ∉ _SUPPORTED_ED25519_CRYPTO_LIBRARIES then
    Except.error Err.cryptoError
  else if c.RSA_CRYPTO_LIBRARY ∉ _available_crypto_libraries c then
    Except.error Err.cryptoError
  else if c.ED25519_CRYPTO_LIBRARY ∉ _available_crypto_libraries c then
    Except.error Err.cryptoError
  else Except.ok ()

/-- `generate_rsa_key(bits)`: checks `RSAKEYBITS_SCHEMA` first, then the
library configuration, generates the PEM pair via the PyCrypto provider, and
derives the keyid from the public-only `key_value` before attaching the
private key. -/
def generate_rsa_key (c : Config) (bits seed : Nat) : Except Err KeyDict :=
  if RSAKEYBITS_SCHEMA_ok bits then
    (_check_crypto_libraries c).bind (fun _ =>
      if c.RSA_CRYPTO_LIBRARY = sPycrypto then
        let pp := pycrypto_keys_generate_rsa_public_and_private bits seed
        let keyid := _get_keyid sRSA ⟨pp.1, []⟩
        Except.ok ⟨sRSA, keyid, ⟨pp.1, pp.2⟩⟩
      else Except.error Err.valueError)
  else Except.error Err.formatError

/-- `generate_ed25519_key()`: checks the library configuration, generates a
raw key pair with `use_pynacl=True` exactly when 'pynacl' is among the
available libraries, hex-encodes the material, and derives the keyid from the
public-only `key_value` before attaching the private key. -/
def generate_ed25519_key (c : Config) (seed : Nat) : Except Err KeyDict :=
  (_check_crypto_libraries c).bind (fun _ =>
    let pp :=
      if sPynacl ∈ _available_crypto_libraries c then
        ed25519_keys_generate_public_and_private true seed
      else
        ed25519_keys_generate_public_and_private false seed
    let keyid := _get_keyid sEd25519 ⟨hexlify pp.1, []⟩
    Except.ok ⟨sEd25519, keyid, ⟨hexlify pp.1, hexlify pp.2⟩⟩)

/-- The Ed25519 sub-engine selection of `create_signature` (keys.py line
569): `_ED25519_CRYPTO_LIBRARY == 'pynacl' and 'pynacl' in
_available_crypto_libraries`. -/
def create_signature_use_pynacl (c : Config) : Bool :=
  decide (c.ED25519_CRYPTO_LIBRARY = sPynacl ∧ sPynacl ∈ _available_crypto_libraries c)

/-- The Ed25519 sub-engine selection of `verify_signature` (keys.py line
683): `_RSA_CRYPTO_LIBRARY == 'pynacl' and 'pynacl' in
_available_crypto_libraries` — note the source reads the RSA configuration
variable here. -/
def verify_signature_use_pynacl (c : Config) : Bool :=
  decide (c.RSA_CRYPTO_LIBRARY = sPynacl ∧ sPynacl ∈ _available_crypto_libraries c)

/-- `create_signature(key_dict, data)`: the shape check
`ANYKEY_SCHEMA.check_match` always succeeds on well-typed inputs; then the
library configuration is checked, the signing work is dispatched on
`keytype` ('rsa' → PyCrypto provider on the PEM private key; 'ed25519' →
un-hexlify the material and call the configured Ed25519 engine; anything
else → `TypeError`), and the raw signature is hex-encoded into the returned
signature record. -/
def create_signature (c : Config) (key_dict : KeyDict) (data : Bytes) :
    Except Err SignatureDict :=
  (_check_crypto_libraries c).bind (fun _ =>
    (if key_dict.keytype = sRSA then
      if c.RSA_CRYPTO_LIBRARY = sPycrypto then
        pycrypto_keys_create_signature key_dict.keyval.priv data
      else Except.error Err.tufError
    else if key_dict.keytype = sEd25519 then
      ed25519_keys_create_signature (unhexlify key_dict.keyval.public)
        (unhexlify key_dict.keyval.priv) data (create_signature_use_pynacl c)
    else Except.error Err.unsupportedKeyTypeError).bind (fun sm =>
      Except.ok ⟨key_dict.keyid, sm.2, hexlify sm.1⟩))

/-- `verify_signature(key_dict, signature, data)`: the shape checks
`ANYKEY_SCHEMA.check_match` and `SIGNATURE_SCHEMA.check_match` always succeed
on well-typed inputs; no library-availability check is performed; `sig` is
un-hexlified and verification is dispatched on `keytype` ('rsa' → PyCrypto
provider on the PEM public key; 'ed25519' → un-hexlify the public key and
call the engine selected by `verify_signature_use_pynacl`; anything else →
`TypeError`). -/
def verify_signature (c : Config) (key_dict : KeyDict)
    (signature : SignatureDict) (data : Bytes) : Except Err Bool :=
  if key_dict.keytype = sRSA then
    if c.RSA_CRYPTO_LIBRARY = sPycrypto then
      pycrypto_keys_verify_signature (unhexlify signature.sig) signature.method
        key_dict.keyval.public data
    else Except.error Err.tufError
  else if key_dict.keytype = sEd25519 then
    ed25519_keys_verify_signature (unhexlify key_dict.keyval.public)
      signature.method (unhexlify signature.sig) data
      (verify_signature_use_pynacl c)
  else Except.error Err.unsupportedKeyTypeError

/-- String constant: an unrecognized keytype / library name. -/
def sBogus : Str := "bogus".toList

/-- A configuration that passes `_check_crypto_libraries`: RSA library
'pycrypto', Ed25519 library 'ed25519', both optional imports available. -/
def cfgOk : Config := ⟨sPycrypto, sEd25519, true, true⟩

/-- The configuration exhibiting the Ed25519 engine-selection mismatch:
RSA library 'pycrypto', Ed25519 library 'pynacl', pynacl available. -/
def cfgMismatch : Config := ⟨sPycrypto, sPynacl, true, true⟩

/-- A configuration whose Ed25519 library name 'bogus' is outside the
supported set, so `_check_crypto_libraries` fails. -/
def cfgBadEd : Config := ⟨sPycrypto, sBogus, true, true⟩

/-- The RSA key record generated from seed 0. -/
def kRsa0 : KeyDict :=
  ⟨sRSA, _get_keyid sRSA ⟨rsaPubPem 0, []⟩, ⟨rsaPubPem 0, rsaPrivPem 0⟩⟩

/-- The public-only variant of `kRsa0` (empty private field). -/
def kRsa0pub : KeyDict :=
  ⟨sRSA, _get_keyid sRSA ⟨rsaPubPem 0, []⟩, ⟨rsaPubPem 0, []⟩⟩

/-- A public-only Ed25519 key record built from seed 0. -/
def kEdC5 : KeyDict :=
  ⟨sEd25519, [], ⟨hexlify (ed25519_public_of_seed 0), []⟩⟩

/-- Example data bytes. -/
def dC5 : Bytes := [7]

/-- The Ed25519 signature over `dC5` by the key of seed 0. -/
def sigEdC5 : SignatureDict :=
  ⟨[], sEd25519, hexlify (ed25519_private_of_seed 0 ++ dC5)⟩

/-- A structurally valid key record with the unrecognized keytype 'bogus'. -/
def kBogus : KeyDict := ⟨sBogus, [], ⟨[], []⟩⟩

/-- An empty signature record. -/
def sigEmpty : SignatureDict := ⟨[], [], []⟩

/-! Helper lemmas. -/

theorem except_bind_ok {ε α β : Type} (a : α) (f : α → Except ε β) :
    (Except.ok a : Except ε α).bind f = f a := rfl

theorem except_bind_error {ε α β : Type} (e : ε) (f : α → Except ε β) :
    (Except.error e : Except ε α).bind f = Except.error e := rfl

theorem natToBytesLE_lt (w : Nat) : ∀ (n : Nat), ∀ b ∈ natToBytesLE w n, b < 256 := by
  induction w with
  | zero => intro n b hb; simp [natToBytesLE] at hb
  | succ w ih =>
    intro n b hb
    simp only [natToBytesLE, List.mem_cons] at hb
    rcases hb with h | h
    · omega
    · exact ih (n / 256) b h

theorem charToBytes_lt (c : Char) : ∀ b ∈ charToBytes c, b < 256 := by
  intro b hb
  simp [charToBytes] at hb
  rcases hb with h | h | h <;> omega

theorem strToBytes_lt (s : Str) : ∀ b ∈ strToBytes s, b < 256 := by
  induction s with
  | nil => intro b hb; simp [strToBytes] at hb
  | cons c rest ih =>
    intro b hb
    simp only [strToBytes, List.mem_append] at hb
    rcases hb with h | h
    · exact charToBytes_lt c b h
    · exact ih b h

theorem unhexDigitVal_digitChar : ∀ n < 16, unhexDigitVal (Nat.digitChar n) = n := by
  decide

theorem unhexlify_hexlify (bs : Bytes) (h : ∀ b ∈ bs, b < 256) :
    unhexlify (hexlify bs) = bs := by
  induction bs with
  | nil => rfl
  | cons b rest ih =>
    have hb : b < 256 := h b (List.mem_cons_self b rest)
    have h1 : b / 16 < 16 := by omega
    have h2 : b % 16 < 16 := by omega
    simp only [hexlify, unhexlify]
    rw [unhexDigitVal_digitChar _ h1, unhexDigitVal_digitChar _ h2,
      ih (fun x hx => h x (List.mem_cons_of_mem b hx))]
    congr 1
    omega

theorem rsaPrivPem_ne_nil (seed : Nat) : rsaPrivPem seed ≠ [] := by
  unfold rsaPrivPem
  intro h
  have h2 := congrArg List.length h
  rw [List.length_append] at h2
  have h3 : sRsaPrivateTag.length = 12 := rfl
  simp only [List.length_nil] at h2
  omega

theorem rsa_matching_private_pem (seed : Nat) :
    rsa_matching_private (rsaPubPem seed) = rsaPrivPem seed := by
  unfold rsa_matching_private rsaPubPem rsaPrivPem
  rw [List.drop_left]

theorem ed25519_matching_private_seed (seed : Nat) :
    ed25519_matching_private (ed25519_public_of_seed seed)
      = ed25519_private_of_seed seed := rfl

theorem ed_pub_lt (seed : Nat) : ∀ b ∈ ed25519_public_of_seed seed, b < 256 := by
  intro b hb
  simp only [ed25519_public_of_seed, List.mem_cons] at hb
  rcases hb with h | h
  · omega
  · exact natToBytesLE_lt 31 seed b h

theorem ed_priv_lt (seed : Nat) : ∀ b ∈ ed25519_private_of_seed seed, b < 256 := by
  intro b hb
  simp only [ed25519_private_of_seed, List.mem_cons] at hb
  rcases hb with h | h
  · omega
  · exact natToBytesLE_lt 31 seed b h

theorem check_ok_rsa_lib (c : Config) (h : _check_crypto_libraries c = Except.ok ()) :
    c.RSA_CRYPTO_LIBRARY = sPycrypto := by
  unfold _check_crypto_libraries at h
  split at h
  · exact Except.noConfusion h
  · next hmem =>
      have h2 := not_not.mp hmem
      simpa [_SUPPORTED_RSA_CRYPTO_LIBRARIES] using h2

theorem get_keyid_ignores_private (keytype : Str) (pub p1 p2 : Str) :
    _get_keyid keytype ⟨pub, p1⟩ = _get_keyid keytype ⟨pub, p2⟩ := by
  simp [_get_keyid, create_in_metadata_format]

theorem generate_rsa_key_ok_shape (c : Config) (bits seed : Nat) (k : KeyDict)
    (h : generate_rsa_key c bits seed = Except.ok k) :
    _check_crypto_libraries c = Except.ok () ∧ c.RSA_CRYPTO_LIBRARY = sPycrypto ∧
      k = ⟨sRSA, _get_keyid sRSA ⟨rsaPubPem seed, []⟩,
            ⟨rsaPubPem seed, rsaPrivPem seed⟩⟩ := by
  unfold generate_rsa_key at h
  split at h
  · cases hc : _check_crypto_libraries c with
    | error e =>
        rw [hc, except_bind_error] at h
        exact Except.noConfusion h
    | ok u =>
        cases u
        rw [hc] at h
        simp only [except_bind_ok] at h
        split at h
        · next hlib =>
            simp only [pycrypto_keys_generate_rsa_public_and_private,
              Except.ok.injEq] at h
            exact ⟨rfl, hlib, h.symm⟩
        · exact Except.noConfusion h
  · exact Except.noConfusion h

theorem generate_ed25519_key_ok_shape (c : Config) (seed : Nat) (k : KeyDict)
    (h : generate_ed25519_key c seed = Except.ok k) :
    _check_crypto_libraries c = Except.ok () ∧
      k = ⟨sEd25519,
            _get_keyid sEd25519 ⟨hexlify (ed25519_public_of_seed seed), []⟩,
            ⟨hexlify (ed25519_public_of_seed seed),
             hexlify (ed25519_private_of_seed seed)⟩⟩ := by
  unfold generate_ed25519_key at h
  cases hc : _check_crypto_libraries c with
  | error e =>
      rw [hc, except_bind_error] at h
      exact Except.noConfusion h
  | ok u =>
      cases u
      rw [hc] at h
      simp only [except_bind_ok, ed25519_keys_generate_public_and_private,
        ite_self, Except.ok.injEq] at h
      exact ⟨rfl, h.symm⟩

theorem rsa_create_eval (c : Config) (seed : Nat) (keyid : Str) (d : Bytes)
    (hc : _check_crypto_libraries c = Except.ok ())
    (hlib : c.RSA_CRYPTO_LIBRARY = sPycrypto) :
    create_signature c ⟨sRSA, keyid, ⟨rsaPubPem seed, rsaPrivPem seed⟩⟩ d
      = Except.ok ⟨keyid, rsaMethod, hexlify (strToBytes (rsaPrivPem seed) ++ d)⟩ := by
  unfold create_signature
  rw [hc]
  simp only [except_bind_ok, hlib]
  simp [pycrypto_keys_create_signature, rsaPrivPem_ne_nil seed, except_bind_ok]

theorem rsa_verify_eval (c : Config) (seed : Nat) (keyid kid2 : Str)
    (dSig dVer : Bytes) (hlib : c.RSA_CRYPTO_LIBRARY = sPycrypto)
    (hb : ∀ b ∈ dSig, b < 256) :
    verify_signature c ⟨sRSA, keyid, ⟨rsaPubPem seed, rsaPrivPem seed⟩⟩
        ⟨kid2, rsaMethod, hexlify (strToBytes (rsaPrivPem seed) ++ dSig)⟩ dVer
      = Except.ok (decide (dSig = dVer)) := by
  have hrt : unhexlify (hexlify (strToBytes (rsaPrivPem seed) ++ dSig))
      = strToBytes (rsaPrivPem seed) ++ dSig := by
    apply unhexlify_hexlify
    intro b hbm
    rcases List.mem_append.mp hbm with h | h
    · exact strToBytes_lt _ b h
    · exact hb b h
  unfold verify_signature
  simp only [hlib]
  simp [pycrypto_keys_verify_signature, hrt, rsa_matching_private_pem]

theorem ed_create_eval (c : Config) (seed : Nat) (keyid : Str) (d : Bytes)
    (hc : _check_crypto_libraries c = Except.ok ()) :
    create_signature c ⟨sEd25519, keyid,
        ⟨hexlify (ed25519_public_of_seed seed),
         hexlify (ed25519_private_of_seed seed)⟩⟩ d
      = Except.ok ⟨keyid, sEd25519, hexlify (ed25519_private_of_seed seed ++ d)⟩ := by
  have hpub := unhexlify_hexlify _ (ed_pub_lt seed)
  have hpriv := unhexlify_hexlify _ (ed_priv_lt seed)
  have hkt : sEd25519 ≠ sRSA := by decide
  have hne : ed25519_private_of_seed seed ≠ [] := by simp [ed25519_private_of_seed]
  unfold create_signature
  rw [hc]
  simp only [except_bind_ok]
  simp [hkt, ed25519_keys_create_signature, hpub, hpriv, hne, except_bind_ok]

theorem ed_verify_eval (c : Config) (seed : Nat) (keyid kid2 : Str)
    (dSig dVer : Bytes) (hb : ∀ b ∈ dSig, b < 256) :
    verify_signature c ⟨sEd25519, keyid,
        ⟨hexlify (ed25519_public_of_seed seed),
         hexlify (ed25519_private_of_seed seed)⟩⟩
      ⟨kid2, sEd25519, hexlify (ed25519_private_of_seed seed ++ dSig)⟩ dVer
      = Except.ok (decide (dSig = dVer)) := by
  have hpub := unhexlify_hexlify _ (ed_pub_lt seed)
  have hsig : unhexlify (hexlify (ed25519_private_of_seed seed ++ dSig))
      = ed25519_private_of_seed seed ++ dSig := by
    apply unhexlify_hexlify
    intro b hbm
    rcases List.mem_append.mp hbm with h | h
    · exact ed_priv_lt seed b h
    · exact hb b h
  have hiff : (ed25519_private_of_seed seed ++ dSig
      = ed25519_matching_private (ed25519_public_of_seed seed) ++ dVer)
      ↔ dSig = dVer := by
    rw [ed25519_matching_private_seed]
    exact ⟨fun hh => List.append_cancel_left hh, fun hh => by rw [hh]⟩
  have hkt : sEd25519 ≠ sRSA := by decide
  unfold verify_signature
  simp [hkt, ed25519_keys_verify_signature, hpub, hsig]
  exact hiff

/-! Claim theorems and witnesses. -/

/-- Claim C1: the keyid derived by `_get_keyid` equals the hexadecimal
SHA-256 digest of the canonical encoding of the public-only form
{keytype, keyval: {public, private: ""}}; consequently any two key values
with the same public component (whatever their private components) yield the
same keyid — the private field never influences the result. -/
theorem keyid_is_digest_of_public_only_form (keytype : Str) (kv1 kv2 : KeyVal)
    (hpub : kv1.public = kv2.public) :
    _get_keyid keytype kv1
      = sha256hexdigest (encode_canonical ⟨keytype, ⟨kv1.public, []⟩⟩) ∧
    _get_keyid keytype kv1 = _get_keyid keytype kv2 := by
  constructor
  · simp [_get_keyid, create_in_metadata_format]
  · have h1 := get_keyid_ignores_private keytype kv1.public kv1.priv kv2.priv
    rw [show (⟨kv1.public, kv1.priv⟩ : KeyVal) = kv1 from rfl] at h1
    rw [hpub] at h1
    rw [show (⟨kv2.public, kv2.priv⟩ : KeyVal) = kv2 from rfl] at h1
    exact h1

theorem keyid_is_digest_witness :
    _get_keyid sRSA ⟨rsaPubPem 0, rsaPrivPem 0⟩
      = sha256hexdigest (encode_canonical ⟨sRSA, ⟨rsaPubPem 0, []⟩⟩) ∧
    _get_keyid sRSA ⟨rsaPubPem 0, rsaPrivPem 0⟩
      = _get_keyid sRSA ⟨rsaPubPem 0, []⟩ :=
  keyid_is_digest_of_public_only_form sRSA ⟨rsaPubPem 0, rsaPrivPem 0⟩
    ⟨rsaPubPem 0, []⟩ rfl

/-- Claim C7: `create_in_metadata_format` returns {keytype, keyval} verbatim
when the private flag is true and the private component is non-empty; in
every other case (flag false, or flag true with an empty private component)
it returns the public-only downgrade {keytype, {public, private: ""}} without
failing. -/
theorem to_metadata_format_cases (keytype : Str) (kv : KeyVal) (p : Bool) :
    (p = true ∧ kv.priv ≠ [] →
      create_in_metadata_format keytype kv p = ⟨keytype, kv⟩) ∧
    (¬(p = true ∧ kv.priv ≠ []) →
      create_in_metadata_format keytype kv p = ⟨keytype, ⟨kv.public, []⟩⟩) := by
  constructor
  · intro h
    unfold create_in_metadata_format
    rw [if_pos h]
  · intro h
    unfold create_in_metadata_format
    rw [if_neg h]

theorem to_metadata_format_witness :
    ¬(true = true ∧ (KeyVal.mk (rsaPubPem 0) []).priv ≠ []) ∧
    create_in_metadata_format sEd25519 ⟨rsaPubPem 0, []⟩ true
      = ⟨sEd25519, ⟨rsaPubPem 0, []⟩⟩ :=
  ⟨by simp,
   (to_metadata_format_cases sEd25519 ⟨rsaPubPem 0, []⟩ true).2 (by simp)⟩

/-- Claim C8: `generate_rsa_key` fails with `FormatError` for every bits
value below 2048 or not a multiple of 256; the size check precedes the
library check and the provider call, so the failure happens before any key
generation work. -/
theorem generate_rsa_key_bad_bits (c : Config) (bits seed : Nat)
    (h : bits < 2048 ∨ bits % 256 ≠ 0) :
    generate_rsa_key c bits seed = Except.error Err.formatError := by
  have hnot : ¬ RSAKEYBITS_SCHEMA_ok bits := by
    intro hok
    rcases hok with ⟨h1, h2⟩
    rcases h with h | h
    · omega
    · exact h h2
  unfold generate_rsa_key
  rw [if_neg hnot]

theorem generate_rsa_key_bad_bits_witness :
    (2000 < 2048 ∨ 2000 % 256 ≠ 0) ∧
    generate_rsa_key cfgOk 2000 0 = Except.error Err.formatError :=
  ⟨Or.inl (by decide), generate_rsa_key_bad_bits cfgOk 2000 0 (Or.inl (by decide))⟩

/-- Claim C9: on a key record whose keytype is neither 'rsa' nor 'ed25519'
(but structurally valid, under a configuration passing the library check),
both `create_signature` and `verify_signature` fail with the
TypeError-class `UnsupportedKeyTypeError`. -/
theorem unsupported_keytype_errors (c : Config) (k : KeyDict)
    (s : SignatureDict) (d : Bytes)
    (hc : _check_crypto_libraries c = Except.ok ())
    (h1 : k.keytype ≠ sRSA) (h2 : k.keytype ≠ sEd25519) :
    create_signature c k d = Except.error Err.unsupportedKeyTypeError ∧
    verify_signature c k s d = Except.error Err.unsupportedKeyTypeError := by
  constructor
  · unfold create_signature
    rw [hc]
    simp only [except_bind_ok]
    rw [if_neg h1, if_neg h2, except_bind_error]
  · unfold verify_signature
    rw [if_neg h1, if_neg h2]

theorem unsupported_keytype_witness :
    create_signature cfgOk kBogus [] = Except.error Err.unsupportedKeyTypeError ∧
    verify_signature cfgOk kBogus sigEmpty []
      = Except.error Err.unsupportedKeyTypeError :=
  unsupported_keytype_errors cfgOk kBogus sigEmpty [] rfl (by decide) (by decide)

/-- Claim C10: `verify_signature` never reads the private component of the
key record — two records identical except in keyval.private give the same
result (same value or same error) on every configuration, signature record
and data. -/
theorem verify_signature_ignores_private (c : Config) (k1 k2 : KeyDict)
    (s : SignatureDict) (d : Bytes)
    (ht : k1.keytype = k2.keytype) (hid : k1.keyid = k2.keyid)
    (hpub : k1.keyval.public = k2.keyval.public) :
    verify_signature c k1 s d = verify_signature c k2 s d := by
  unfold verify_signature
  rw [ht, hpub]

theorem verify_ignores_private_witness :
    verify_signature cfgOk kRsa0 sigEmpty []
      = verify_signature cfgOk kRsa0pub sigEmpty [] :=
  verify_signature_ignores_private cfgOk kRsa0 kRsa0pub sigEmpty [] rfl rfl rfl

/-- Claim C2: for every key record produced by `generate_rsa_key` or
`generate_ed25519_key` and every byte string d, verifying a freshly created
signature over d returns true, and for distinct byte strings d1 ≠ d2,
verifying the signature created over d1 against d2 returns false (the
delegated crypto providers are modelled as correct). -/
theorem sign_verify_roundtrip (c : Config) (bits seed : Nat) (k : KeyDict)
    (d d1 d2 : Bytes)
    (hk : generate_rsa_key c bits seed = Except.ok k ∨
          generate_ed25519_key c seed = Except.ok k)
    (hd : ∀ b ∈ d, b < 256) (hd1 : ∀ b ∈ d1, b < 256) (hne : d1 ≠ d2) :
    (∃ s, create_signature c k d = Except.ok s ∧
          verify_signature c k s d = Except.ok true) ∧
    (∃ s, create_signature c k d1 = Except.ok s ∧
          verify_signature c k s d2 = Except.ok false) := by
  rcases hk with hk | hk
  · obtain ⟨hc, hlib, hk⟩ := generate_rsa_key_ok_shape c bits seed k hk
    subst hk
    constructor
    · exact ⟨_, rsa_create_eval c seed _ d hc hlib, by
        rw [rsa_verify_eval c seed _ _ d d hlib hd]
        simp⟩
    · exact ⟨_, rsa_create_eval c seed _ d1 hc hlib, by
        rw [rsa_verify_eval c seed _ _ d1 d2 hlib hd1]
        simp [hne]⟩
  · obtain ⟨hc, hk⟩ := generate_ed25519_key_ok_shape c seed k hk
    subst hk
    constructor
    · exact ⟨_, ed_create_eval c seed _ d hc, by
        rw [ed_verify_eval c seed _ _ d d hd]
        simp⟩
    · exact ⟨_, ed_create_eval c seed _ d1 hc, by
        rw [ed_verify_eval c seed _ _ d1 d2 hd1]
        simp [hne]⟩

theorem sign_verify_roundtrip_witness :
    (∃ s, create_signature cfgOk kRsa0 [1] = Except.ok s ∧
          verify_signature cfgOk kRsa0 s [1] = Except.ok true) ∧
    (∃ s, create_signature cfgOk kRsa0 [1] = Except.ok s ∧
          verify_signature cfgOk kRsa0 s [2] = Except.ok false) :=
  sign_verify_roundtrip cfgOk 2048 0 kRsa0 [1] [1] [2]
    (Or.inl rfl) (by decide) (by decide) (by decide)

/-- Claim C3 (refuted; code bug): the claim says create_signature and
verify_signature select the same Ed25519 sub-engine, both branching on the
configured Ed25519 engine name.  At the valid configuration
{RSA_CRYPTO_LIBRARY := 'pycrypto', ED25519_CRYPTO_LIBRARY := 'pynacl',
pynacl available}, create_signature selects the pynacl engine (keys.py line
569 branches on _ED25519_CRYPTO_LIBRARY) while verify_signature selects the
fallback engine (line 683 branches on _RSA_CRYPTO_LIBRARY). -/
theorem ed25519_engine_selection_mismatch :
    _check_crypto_libraries cfgMismatch = Except.ok () ∧
    create_signature_use_pynacl cfgMismatch = true ∧
    verify_signature_use_pynacl cfgMismatch = false := ⟨rfl, rfl, rfl⟩

/-- Claim C4: on a key record with an empty private component (keytype in
the data model's {rsa, ed25519}, configuration passing the library check),
`create_signature` fails with the TypeError-class `MissingPrivateKeyError`
instead of producing a signature record. -/
theorem create_signature_missing_private (c : Config) (k : KeyDict) (d : Bytes)
    (hc : _check_crypto_libraries c = Except.ok ())
    (hkt : k.keytype = sRSA ∨ k.keytype = sEd25519)
    (hpriv : k.keyval.priv = []) :
    create_signature c k d = Except.error Err.missingPrivateKeyError := by
  have hu : unhexlify [] = [] := rfl
  unfold create_signature
  rw [hc]
  simp only [except_bind_ok]
  rcases hkt with hkt | hkt
  · rw [hkt, if_pos rfl, check_ok_rsa_lib c hc, if_pos rfl, hpriv]
    simp [pycrypto_keys_create_signature, except_bind_error]
  · have hne : sEd25519 ≠ sRSA := by decide
    rw [hkt, if_neg hne, if_pos rfl, hpriv, hu]
    simp [ed25519_keys_create_signature, except_bind_error]

theorem create_signature_missing_private_witness :
    create_signature cfgOk kRsa0pub [] = Except.error Err.missingPrivateKeyError :=
  create_signature_missing_private cfgOk kRsa0pub [] rfl (Or.inl rfl) rfl

/-- Claim C5 counterexample: under a configuration whose Ed25519 library
name is unsupported — `_check_crypto_libraries` fails with the configuration
error — `verify_signature` does not fail with that error; it runs the
dispatch and returns an ordinary boolean verdict. -/
theorem verify_no_availability_check_counterexample :
    _check_crypto_libraries cfgBadEd = Except.error Err.cryptoError ∧
    verify_signature cfgBadEd kEdC5 sigEdC5 dC5 = Except.ok true := ⟨rfl, rfl⟩

/-- Claim C5 (amended): `create_signature` performs the library
availability/configuration check before dispatching — when the check fails,
the call fails with that configuration error before any cryptographic
work — but `verify_signature` performs no availability check and never
returns the configuration error. -/
theorem availability_check_in_create_not_verify (c : Config) (k : KeyDict)
    (s : SignatureDict) (d : Bytes) (e : Err)
    (hc : _check_crypto_libraries c = Except.error e) :
    create_signature c k d = Except.error e ∧
    verify_signature c k s d ≠ Except.error Err.cryptoError := by
  constructor
  · unfold create_signature
    rw [hc, except_bind_error]
  · unfold verify_signature
    split
    · split
      · unfold pycrypto_keys_verify_signature
        split <;> simp
      · simp
    · split
      · unfold ed25519_keys_verify_signature
        split <;> simp
      · simp

theorem availability_check_witness :
    create_signature cfgBadEd kEdC5 dC5 = Except.error Err.cryptoError ∧
    verify_signature cfgBadEd kEdC5 sigEdC5 dC5 ≠ Except.error Err.cryptoError :=
  availability_check_in_create_not_verify cfgBadEd kEdC5 sigEdC5 dC5
    Err.cryptoError rfl

/-- Claim C6: for every generated key record k, converting to metadata
format with private inclusion and back
(`create_from_metadata_format (create_in_metadata_format k.keytype k.keyval true)`)
yields a record whose keyid equals k.keyid — byte-for-byte the keyid
re-derived from the public material alone — and whose keyval is identical to
k.keyval. -/
theorem metadata_roundtrip (c : Config) (bits seed : Nat) (k : KeyDict)
    (hk : generate_rsa_key c bits seed = Except.ok k ∨
          generate_ed25519_key c seed = Except.ok k) :
    (create_from_metadata_format
        (create_in_metadata_format k.keytype k.keyval true)).keyid = k.keyid ∧
    (create_from_metadata_format
        (create_in_metadata_format k.keytype k.keyval true)).keyval = k.keyval := by
  rcases hk with hk | hk
  · obtain ⟨hc, hlib, hk⟩ := generate_rsa_key_ok_shape c bits seed k hk
    subst hk
    have hne := rsaPrivPem_ne_nil seed
    constructor
    · simp only [create_in_metadata_format, create_from_metadata_format]
      rw [if_pos ⟨by trivial, hne⟩]
      exact get_keyid_ignores_private _ _ _ _
    · simp only [create_in_metadata_format, create_from_metadata_format]
      rw [if_pos ⟨by trivial, hne⟩]
  · obtain ⟨hc, hk⟩ := generate_ed25519_key_ok_shape c seed k hk
    subst hk
    have hne : hexlify (ed25519_private_of_seed seed) ≠ [] := by
      simp [ed25519_private_of_seed, hexlify]
    constructor
    · simp only [create_in_metadata_format, create_from_metadata_format]
      rw [if_pos ⟨by trivial, hne⟩]
      exact get_keyid_ignores_private _ _ _ _
    · simp only [create_in_metadata_format, create_from_metadata_format]
      rw [if_pos ⟨by trivial, hne⟩]

theorem metadata_roundtrip_witness :
    (create_from_metadata_format
        (create_in_metadata_format kRsa0.keytype kRsa0.keyval true)).keyid
      = kRsa0.keyid ∧
    (create_from_metadata_format
        (create_in_metadata_format kRsa0.keytype kRsa0.keyval true)).keyval
      = kRsa0.keyval :=
  metadata_roundtrip cfgOk 2048 0 kRsa0 (Or.inl rfl)
